import Mathlib

/-!
Shallow embedding of `src/utils/transactionFetcher.ts` and of the network
toggle from `src/contexts/NetworkContext.tsx` (escrow-viewer).

The `fetch` + `response.json()` sequence is modelled by an explicit outcome
type: a call either fails at the transport level (network exception, non-2xx
HTTP status, JSON parse failure) or yields a parsed JSON-RPC payload.  A
JavaScript `throw` that is caught by the function's outer `try/catch` is
modelled by mapping the corresponding outcome directly to the catch-branch
result.  Missing / `undefined` JSON fields are modelled with `Option`;
JavaScript truthiness of an optional string (`""` and `undefined` are falsy)
is `jsTruthy`; JSON objects and arrays are truthy whenever present, so for
object-valued fields presence (`Option.isSome`) coincides with truthiness.
-/

/-- JavaScript truthiness of an optional string field: absent (`undefined`)
and the empty string are falsy, every other string is truthy. -/
def jsTruthy (o : Option String) : Bool :=
  match o with
  | some s => s != ""
  | none => false

/-- `s.includes(sub)` of JavaScript, for a non-empty needle: `sub` occurs as a
substring of `s` exactly when splitting `s` on `sub` yields at least two
pieces. -/
def strIncludes (s sub : String) : Bool :=
  decide (2 ≤ (s.splitOn sub).length)

/-- `TransactionMetadata` of transactionFetcher.ts.  At runtime `status` is
whatever string the RPC returned (the TS enum annotation is not enforced), so
it is modelled as `String`. -/
structure TransactionMetadata where
  txHash : String
  ledger : Int
  createdAt : String
  status : String
  applicationOrder : Option Int
  deriving DecidableEq, Repr

/-- `FetchTransactionsOptions` of transactionFetcher.ts. -/
structure FetchTransactionsOptions where
  startLedger : Option Int := none
  cursor : Option String := none
  limit : Option Nat := none
  deriving DecidableEq, Repr

/-- The destructuring default `limit = 50` applied when building the
`getTransactions` request. -/
def requestedLimit (options : FetchTransactionsOptions) : Nat :=
  options.limit.getD 50

/-- `TransactionResponse` of transactionFetcher.ts (the listing page). -/
structure TransactionResponse where
  transactions : List TransactionMetadata
  latestLedger : Int
  oldestLedger : Int
  cursor : Option String := none
  hasMore : Bool
  retentionNotice : Option String
  deriving DecidableEq, Repr

/-- One raw transaction object inside a `getTransactions` result payload.
Structurally well-formed: the fields read by the mapper are present with the
expected JSON types (contents unvalidated, as in the source). -/
structure RawTransaction where
  id : String
  ledger : Int
  createdAt : String
  status : String
  applicationOrder : Option Int
  deriving DecidableEq, Repr

/-- The `result` member of a `getTransactions` JSON-RPC response. -/
structure RpcResult where
  transactions : Option (List RawTransaction)
  latestLedger : Option Int
  oldestLedger : Option Int
  cursor : Option String
  deriving DecidableEq, Repr

/-- The `error` member of a JSON-RPC response body. -/
structure RpcError where
  code : Option Int
  message : Option String
  deriving DecidableEq, Repr

/-- A parsed `getTransactions` JSON-RPC response body. -/
structure RpcData where
  error : Option RpcError
  result : Option RpcResult
  deriving DecidableEq, Repr

/-- Transport-level outcome of the `fetch` call in `fetchTransactions`:
a network exception, a non-2xx HTTP status (`!response.ok`), a JSON parse
failure in `response.json()`, or a parsed body. -/
inductive FetchOutcome where
  | networkError
  | httpNotOk (status : Nat)
  | parseError
  | ok (data : RpcData)
  deriving DecidableEq, Repr

/-- The retention notice returned on the retention-specific RPC-error path. -/
def retentionNoticeText : String :=
  "Transaction data beyond retention period. RPC typically retains 24h-7 days of history."

/-- The notice attached to a successful listing that came back empty. -/
def emptyNoticeText : String :=
  "No recent transactions found. Note: RPC typically retains 24h-7 days of history."

/-- The notice returned by the outer catch-all fallback. -/
def fallbackNoticeText : String :=
  "Unable to fetch transaction history. This may be due to retention limits or network issues."

/-- The empty page returned on the retention-specific RPC-error path
(lines 92-98 of transactionFetcher.ts). -/
def retentionResponse : TransactionResponse :=
  { transactions := []
    latestLedger := 0
    oldestLedger := 0
    hasMore := false
    retentionNotice := some retentionNoticeText }

/-- The empty page returned by the outer `catch` (lines 127-133). -/
def fallbackResponse : TransactionResponse :=
  { transactions := []
    latestLedger := 0
    oldestLedger := 0
    hasMore := false
    retentionNotice := some fallbackNoticeText }

/-- The per-item mapping of the success path (lines 104-110): raw `id` becomes
`txHash`; `ledger`, `createdAt`, `status`, `applicationOrder` pass through. -/
def mapRawTx (tx : RawTransaction) : TransactionMetadata :=
  { txHash := tx.id
    ledger := tx.ledger
    createdAt := tx.createdAt
    status := tx.status
    applicationOrder := tx.applicationOrder }

/-- `data.error.code === -32600 || data.error.message?.includes("retention")`
(line 91). -/
def isRetentionError (e : RpcError) : Bool :=
  if e.code = some (-32600) then true
  else
    match e.message with
    | some m => strIncludes m "retention"
    | none => false

/-- The success-path page (lines 104-121): `result.transactions || []` mapped
through `mapRawTx`; `latestLedger || 0` and `oldestLedger || 0`; `cursor`
passed through; `hasMore = !!result.cursor` (JS truthiness, so an empty-string
cursor gives `false`); an empty-listing notice when no items survived. -/
def successResponse (r : RpcResult) : TransactionResponse :=
  let transactions := (r.transactions.getD []).map mapRawTx
  { transactions := transactions
    latestLedger := r.latestLedger.getD 0
    oldestLedger := r.oldestLedger.getD 0
    cursor := r.cursor
    hasMore := jsTruthy r.cursor
    retentionNotice :=
      if transactions.length = 0 then some emptyNoticeText else none }

/-- `fetchTransactions` (lines 47-135).  The contract-id and options only
shape the request body; the returned page is determined by the transport
outcome.  Every throwing path (HTTP error, network/parse exception, generic
RPC error rethrown at line 100, and a success body whose `result` member is
absent, which makes line 104 throw) lands in the outer catch and produces
`fallbackResponse`. -/
def fetchTransactions (contractId : String) (options : FetchTransactionsOptions)
    (outcome : FetchOutcome) : TransactionResponse :=
  match outcome with
  | .networkError => fallbackResponse
  | .httpNotOk _ => fallbackResponse
  | .parseError => fallbackResponse
  | .ok data =>
    match data.error with
    | some e =>
      if isRetentionError e then retentionResponse else fallbackResponse
    | none =>
      match data.result with
      | none => fallbackResponse
      | some r => successResponse r

/-- Opaque JSON value (contract-call argument or Soroban return value);
carried through verbatim, never inspected.  When present in the RPC JSON it is
an object and therefore truthy. -/
inductive ScVal where
  | mk (raw : String)
  deriving DecidableEq, Repr

/-- `hostFunction.invokeContract` of an invoke-host-function operation. -/
structure InvokeContract where
  functionName : Option String
  args : Option (List ScVal)
  deriving DecidableEq, Repr

/-- `invokeHostFunction.hostFunction`. -/
structure HostFunction where
  invokeContract : Option InvokeContract
  deriving DecidableEq, Repr

/-- `body.invokeHostFunction`. -/
structure InvokeHostFunctionOp where
  hostFunction : Option HostFunction
  deriving DecidableEq, Repr

/-- The `body` member of an envelope operation. -/
structure OperationBody where
  invokeHostFunction : Option InvokeHostFunctionOp
  deriving DecidableEq, Repr

/-- One operation of the envelope's operation list. -/
structure Operation where
  body : Option OperationBody
  deriving DecidableEq, Repr

/-- `envelope.v1.tx` (holds the operation list). -/
structure EnvelopeTx where
  operations : Option (List Operation)
  deriving DecidableEq, Repr

/-- `envelope.v1`. -/
structure EnvelopeV1 where
  tx : Option EnvelopeTx
  deriving DecidableEq, Repr

/-- The decoded transaction envelope attached to a `getTransaction` result. -/
structure Envelope where
  signatures : Option (List String)
  v1 : Option EnvelopeV1
  deriving DecidableEq, Repr

/-- `meta.v3.sorobanMeta`. -/
structure SorobanMeta where
  returnValue : Option ScVal
  deriving DecidableEq, Repr

/-- `meta.v3`. -/
structure MetaV3 where
  sorobanMeta : Option SorobanMeta
  deriving DecidableEq, Repr

/-- The decoded transaction meta attached to a `getTransaction` result. -/
structure TxMeta where
  v3 : Option MetaV3
  deriving DecidableEq, Repr

/-- The `result` payload of a `getTransaction` response (`tx` in the source). -/
structure TxData where
  id : String
  ledger : Int
  createdAt : String
  status : String
  envelopeXdr : Option String
  envelope : Option Envelope
  resultMetaXdr : Option String
  meta : Option TxMeta
  deriving DecidableEq, Repr

/-- `TransactionDetails` of transactionFetcher.ts. -/
structure TransactionDetails where
  txHash : String
  ledger : Int
  createdAt : String
  status : String
  signers : List String
  calledFunction : Option String
  args : Option (List ScVal)
  result : Option ScVal
  envelope : Option Envelope
  meta : Option TxMeta
  deriving DecidableEq, Repr

/-- A parsed `getTransaction` JSON-RPC response body. -/
structure DetailData where
  error : Option RpcError
  result : Option TxData
  deriving DecidableEq, Repr

/-- Transport-level outcome of the `fetch` call in `fetchTransactionDetails`. -/
inductive DetailOutcome where
  | networkError
  | httpNotOk (status : Nat)
  | parseError
  | ok (data : DetailData)
  deriving DecidableEq, Repr

/-- `tx.envelope?.v1?.tx?.operations || []` (line 189). -/
def operationsOf (tx : TxData) : List Operation :=
  ((((tx.envelope.bind Envelope.v1).bind EnvelopeV1.tx).bind
      EnvelopeTx.operations).getD [])

/-- The find-predicate of line 190: `op.body?.invokeHostFunction` is truthy
(an object) exactly when the optional chain yields a present value. -/
def hasInvokeHostFunction (op : Operation) : Bool :=
  (op.body.bind OperationBody.invokeHostFunction).isSome

/-- `x || dflt` for an optional string (JS: `undefined` and `""` fall back). -/
def jsOrStr (o : Option String) (dflt : String) : String :=
  match o with
  | some s => if s = "" then dflt else s
  | none => dflt

/-- `tx.resultMetaXdr && tx.meta` (line 186): the XDR string must be present
and non-empty (string truthiness) and the meta object present. -/
def metaAvailable (tx : TxData) : Bool :=
  jsTruthy tx.resultMetaXdr && tx.meta.isSome

/-- Lines 189-198: locate the first invoke-host-function operation and read
`functionName || "invoke_contract"` and `args || []` when
`hostFunction?.invokeContract` is present.  All accesses are optional-chained
or guarded in the source, so the inner `try/catch` never fires on this model. -/
def extractCall (tx : TxData) : Option String × Option (List ScVal) :=
  match (operationsOf tx).find? hasInvokeHostFunction with
  | none => (none, none)
  | some op =>
    match (op.body.bind OperationBody.invokeHostFunction).bind
        InvokeHostFunctionOp.hostFunction with
    | some hf =>
      match hf.invokeContract with
      | some ic => (some (jsOrStr ic.functionName "invoke_contract"),
                    some (ic.args.getD []))
      | none => (none, none)
    | none => (none, none)

/-- Lines 201-203: `tx.meta.v3?.sorobanMeta?.returnValue`, copied through when
present (a present return value is an object, hence truthy). -/
def extractResult (tx : TxData) : Option ScVal :=
  ((tx.meta.bind TxMeta.v3).bind MetaV3.sorobanMeta).bind SorobanMeta.returnValue

/-- Lines 174-220: build the `TransactionDetails` returned on a success
payload.  Signers are the placeholder when `tx.envelopeXdr` is truthy and
`tx.envelope?.signatures` is present; function-call and return-value
extraction happens only behind `tx.resultMetaXdr && tx.meta`. -/
def buildDetails (tx : TxData) : TransactionDetails :=
  let signers : List String :=
    if jsTruthy tx.envelopeXdr && (tx.envelope.bind Envelope.signatures).isSome
    then ["(Signature validation required)"] else []
  let call := if metaAvailable tx then extractCall tx else (none, none)
  let res := if metaAvailable tx then extractResult tx else none
  { txHash := tx.id
    ledger := tx.ledger
    createdAt := tx.createdAt
    status := tx.status
    signers := signers
    calledFunction := call.1
    args := call.2
    result := res
    envelope := tx.envelope
    meta := tx.meta }

/-- `fetchTransactionDetails` (lines 141-226): transport failures and RPC
errors return `none` via the catch / early returns; a success body without a
`result` payload returns `none` (line 172); otherwise the details record. -/
def fetchTransactionDetails (txHash : String) (outcome : DetailOutcome) :
    Option TransactionDetails :=
  match outcome with
  | .networkError => none
  | .httpNotOk _ => none
  | .parseError => none
  | .ok data =>
    match data.error with
    | some _ => none
    | none =>
      match data.result with
      | none => none
      | some tx => some (buildDetails tx)

/-- The two-valued network selection of NetworkContext.tsx. -/
inductive NetworkType where
  | testnet
  | mainnet
  deriving DecidableEq, Repr

/-- The value computed by `toggleNetwork` (lines 42-45 of
NetworkContext.tsx): `currentNetwork === 'testnet' ? 'mainnet' : 'testnet'`,
which is then handed to `setNetwork`. -/
def toggleNetwork (currentNetwork : NetworkType) : NetworkType :=
  if currentNetwork = NetworkType.testnet then NetworkType.mainnet
  else NetworkType.testnet

/-- C1: for every input and every transport-level failure (network exception,
non-2xx HTTP status, JSON parse failure, or a generic re-raised RPC error),
`fetchTransactions` does not fail: it returns a page with no items, zero
ledger bounds, `hasMore = false`, and a non-empty retention notice. -/
theorem fetchTransactions_transport_fallback
    (contractId : String) (options : FetchTransactionsOptions)
    (outcome : FetchOutcome)
    (h : outcome = FetchOutcome.networkError ∨
         (∃ s, outcome = FetchOutcome.httpNotOk s) ∨
         outcome = FetchOutcome.parseError ∨
         (∃ data e, outcome = FetchOutcome.ok data ∧ data.error = some e ∧
            isRetentionError e = false)) :
    (fetchTransactions contractId options outcome).transactions = [] ∧
    (fetchTransactions contractId options outcome).latestLedger = 0 ∧
    (fetchTransactions contractId options outcome).oldestLedger = 0 ∧
    (fetchTransactions contractId options outcome).hasMore = false ∧
    ∃ s, (fetchTransactions contractId options outcome).retentionNotice = some s ∧
      s ≠ "" := by
  have hfb : fetchTransactions contractId options outcome = fallbackResponse := by
    rcases h with h | ⟨s, h⟩ | h | ⟨data, e, h, he, hr⟩
    · subst h; rfl
    · subst h; rfl
    · subst h; rfl
    · subst h
      obtain ⟨err, res⟩ := data
      cases he
      show (if isRetentionError e then retentionResponse else fallbackResponse) =
        fallbackResponse
      rw [hr]
      rfl
  rw [hfb]
  exact ⟨rfl, rfl, rfl, rfl, fallbackNoticeText, rfl, by decide⟩

/-- Witness for C1 at the network-exception outcome. -/
theorem fetchTransactions_transport_fallback_witness :
    (fetchTransactions "c" {} FetchOutcome.networkError).transactions = [] ∧
    (fetchTransactions "c" {} FetchOutcome.networkError).latestLedger = 0 ∧
    (fetchTransactions "c" {} FetchOutcome.networkError).oldestLedger = 0 ∧
    (fetchTransactions "c" {} FetchOutcome.networkError).hasMore = false ∧
    ∃ s, (fetchTransactions "c" {} FetchOutcome.networkError).retentionNotice =
      some s ∧ s ≠ "" :=
  fetchTransactions_transport_fallback "c" {} FetchOutcome.networkError (Or.inl rfl)

/-- C2: every RPC error whose code is `-32600` or whose message contains the
substring "retention" yields, for any requested options (in particular any
`limit`), the empty page with the retention-specific notice and zero ledger
bounds. -/
theorem fetchTransactions_retention_path
    (contractId : String) (options : FetchTransactionsOptions)
    (data : RpcData) (e : RpcError)
    (he : data.error = some e)
    (hret : e.code = some (-32600) ∨
            ∃ m, e.message = some m ∧ strIncludes m "retention" = true) :
    (fetchTransactions contractId options (FetchOutcome.ok data)).transactions = [] ∧
    (fetchTransactions contractId options (FetchOutcome.ok data)).latestLedger = 0 ∧
    (fetchTransactions contractId options (FetchOutcome.ok data)).oldestLedger = 0 ∧
    (fetchTransactions contractId options (FetchOutcome.ok data)).hasMore = false ∧
    (fetchTransactions contractId options (FetchOutcome.ok data)).retentionNotice =
      some retentionNoticeText := by
  have hr : isRetentionError e = true := by
    rcases hret with hc | ⟨m, hm, hs⟩
    · simp [isRetentionError, hc]
    · by_cases hc : e.code = some (-32600)
      · simp [isRetentionError, hc]
      · simp [isRetentionError, hc, hm, hs]
  have hres : fetchTransactions contractId options (FetchOutcome.ok data) =
      retentionResponse := by
    obtain ⟨err, res⟩ := data
    cases he
    show (if isRetentionError e then retentionResponse else fallbackResponse) =
      retentionResponse
    rw [hr]
    rfl
  rw [hres]
  exact ⟨rfl, rfl, rfl, rfl, rfl⟩

/-- Witness for C2 at the sentinel error code `-32600` with `limit = 7`. -/
theorem fetchTransactions_retention_path_witness :
    (fetchTransactions "c" { limit := some 7 }
      (FetchOutcome.ok ⟨some ⟨some (-32600), none⟩, none⟩)).transactions = [] ∧
    (fetchTransactions "c" { limit := some 7 }
      (FetchOutcome.ok ⟨some ⟨some (-32600), none⟩, none⟩)).latestLedger = 0 ∧
    (fetchTransactions "c" { limit := some 7 }
      (FetchOutcome.ok ⟨some ⟨some (-32600), none⟩, none⟩)).oldestLedger = 0 ∧
    (fetchTransactions "c" { limit := some 7 }
      (FetchOutcome.ok ⟨some ⟨some (-32600), none⟩, none⟩)).hasMore = false ∧
    (fetchTransactions "c" { limit := some 7 }
      (FetchOutcome.ok ⟨some ⟨some (-32600), none⟩, none⟩)).retentionNotice =
      some retentionNoticeText :=
  fetchTransactions_retention_path "c" { limit := some 7 }
    ⟨some ⟨some (-32600), none⟩, none⟩ ⟨some (-32600), none⟩ rfl (Or.inl rfl)

/-- C8: a success response with the single raw transaction
`{id:"abc", ledger:5, createdAt:"t", status:"SUCCESS"}` maps to exactly one
summary with `txHash = "abc"`, `ledger = 5`, `status = "SUCCESS"`. -/
theorem fetchTransactions_maps_single_tx :
    fetchTransactions "c" {}
      (FetchOutcome.ok ⟨none, some ⟨some [⟨"abc", 5, "t", "SUCCESS", none⟩],
        some 100, some 1, none⟩⟩) =
    { transactions := [⟨"abc", 5, "t", "SUCCESS", none⟩]
      latestLedger := 100
      oldestLedger := 1
      cursor := none
      hasMore := false
      retentionNotice := none } := rfl

/-- C9: `toggleNetwork` is an involution on the two valid network values and
maps each of the two values to the other. -/
theorem toggleNetwork_involution :
    (∀ n, toggleNetwork (toggleNetwork n) = n) ∧
    toggleNetwork NetworkType.testnet = NetworkType.mainnet ∧
    toggleNetwork NetworkType.mainnet = NetworkType.testnet :=
  ⟨fun n => by cases n <;> rfl, rfl, rfl⟩

/-- Counterexample to C3 as stated: the mapper validates nothing, so a
structurally well-formed response whose raw transaction has an empty `id` and
a negative `ledger` yields a summary with empty `txHash` and negative
`ledger`. -/
theorem fetchTransactions_summary_invariant_cex :
    ∃ t, t ∈ (fetchTransactions "c" {}
        (FetchOutcome.ok ⟨none, some ⟨some [⟨"", -1, "t", "SUCCESS", none⟩],
          none, none, none⟩⟩)).transactions ∧
      t.txHash = "" ∧ t.ledger < 0 := by
  refine ⟨⟨"", -1, "t", "SUCCESS", none⟩, ?_, rfl, by decide⟩
  show (⟨"", -1, "t", "SUCCESS", none⟩ : TransactionMetadata) ∈
    [(⟨"", -1, "t", "SUCCESS", none⟩ : TransactionMetadata)]
  exact List.mem_singleton.mpr rfl

/-- C3 (amended): summaries pass the raw fields through unchanged, so when
every raw transaction of a success payload has a non-empty `id` and a
non-negative `ledger`, every summary in the listing has a non-empty `txHash`
and `ledger ≥ 0`. -/
theorem fetchTransactions_summary_invariant
    (contractId : String) (options : FetchTransactionsOptions) (r : RpcResult)
    (h : ∀ tx ∈ r.transactions.getD [], tx.id ≠ "" ∧ 0 ≤ tx.ledger) :
    ∀ t ∈ (fetchTransactions contractId options
        (FetchOutcome.ok ⟨none, some r⟩)).transactions,
      t.txHash ≠ "" ∧ 0 ≤ t.ledger := by
  intro t ht
  have hmem : t ∈ (r.transactions.getD []).map mapRawTx := ht
  rw [List.mem_map] at hmem
  obtain ⟨tx, htx, rfl⟩ := hmem
  exact ⟨(h tx htx).1, (h tx htx).2⟩

/-- Witness for C3 (amended) at a one-element listing. -/
theorem fetchTransactions_summary_invariant_witness :
    (⟨"abc", 5, "t", "SUCCESS", none⟩ : TransactionMetadata).txHash ≠ "" ∧
    0 ≤ (⟨"abc", 5, "t", "SUCCESS", none⟩ : TransactionMetadata).ledger :=
  fetchTransactions_summary_invariant "c" {}
    ⟨some [⟨"abc", 5, "t", "SUCCESS", none⟩], none, none, none⟩
    (by decide)
    ⟨"abc", 5, "t", "SUCCESS", none⟩
    (by
      show (⟨"abc", 5, "t", "SUCCESS", none⟩ : TransactionMetadata) ∈
        [(⟨"abc", 5, "t", "SUCCESS", none⟩ : TransactionMetadata)]
      exact List.mem_singleton.mpr rfl)

/-- Counterexample to C4 as stated: a success payload whose `cursor` is the
empty string passes the cursor through (so it is present) while
`hasMore = !!cursor` is `false` under JS string truthiness. -/
theorem fetchTransactions_hasMore_cex :
    (fetchTransactions "c" {}
      (FetchOutcome.ok ⟨none, some ⟨some [], none, none, some ""⟩⟩)).cursor =
        some "" ∧
    (fetchTransactions "c" {}
      (FetchOutcome.ok ⟨none, some ⟨some [], none, none, some ""⟩⟩)).hasMore =
        false := ⟨rfl, rfl⟩

/-- C4 (amended): on every input and outcome, `hasMore` is `true` exactly when
the returned `cursor` is present with a non-empty string (JS truthiness of
`!!result.cursor`). -/
theorem fetchTransactions_hasMore_iff
    (contractId : String) (options : FetchTransactionsOptions)
    (outcome : FetchOutcome) :
    (fetchTransactions contractId options outcome).hasMore = true ↔
      ∃ s, (fetchTransactions contractId options outcome).cursor = some s ∧
        s ≠ "" := by
  cases outcome with
  | networkError => simp [fetchTransactions, fallbackResponse]
  | httpNotOk s => simp [fetchTransactions, fallbackResponse]
  | parseError => simp [fetchTransactions, fallbackResponse]
  | ok data =>
    obtain ⟨err, res⟩ := data
    cases err with
    | some e =>
      by_cases hr : isRetentionError e = true
      · simp [fetchTransactions, hr, retentionResponse]
      · simp [fetchTransactions, Bool.eq_false_iff.mpr hr, fallbackResponse]
    | none =>
      cases res with
      | none => simp [fetchTransactions, fallbackResponse]
      | some r =>
        show jsTruthy r.cursor = true ↔ ∃ s, r.cursor = some s ∧ s ≠ ""
        cases hc : r.cursor with
        | none => simp [jsTruthy]
        | some s => simp [jsTruthy, bne_iff_ne]

/-- C5: on every input and outcome, an empty listing carries a present,
non-empty retention notice, and a non-empty listing carries no notice. -/
theorem fetchTransactions_notice_iff_empty
    (contractId : String) (options : FetchTransactionsOptions)
    (outcome : FetchOutcome) :
    ((fetchTransactions contractId options outcome).transactions = [] →
       ∃ s, (fetchTransactions contractId options outcome).retentionNotice =
         some s ∧ s ≠ "") ∧
    ((fetchTransactions contractId options outcome).transactions ≠ [] →
       (fetchTransactions contractId options outcome).retentionNotice = none) := by
  cases outcome with
  | networkError =>
    exact ⟨fun _ => ⟨fallbackNoticeText, rfl, by decide⟩, fun h => absurd rfl h⟩
  | httpNotOk s =>
    exact ⟨fun _ => ⟨fallbackNoticeText, rfl, by decide⟩, fun h => absurd rfl h⟩
  | parseError =>
    exact ⟨fun _ => ⟨fallbackNoticeText, rfl, by decide⟩, fun h => absurd rfl h⟩
  | ok data =>
    obtain ⟨err, res⟩ := data
    cases err with
    | some e =>
      by_cases hr : isRetentionError e = true
      · have hres : fetchTransactions contractId options
            (FetchOutcome.ok ⟨some e, res⟩) = retentionResponse := by
          show (if isRetentionError e then retentionResponse else fallbackResponse) =
            retentionResponse
          rw [hr]; rfl
        rw [hres]
        exact ⟨fun _ => ⟨retentionNoticeText, rfl, by decide⟩, fun h => absurd rfl h⟩
      · have hres : fetchTransactions contractId options
            (FetchOutcome.ok ⟨some e, res⟩) = fallbackResponse := by
          show (if isRetentionError e then retentionResponse else fallbackResponse) =
            fallbackResponse
          rw [Bool.eq_false_iff.mpr hr]; rfl
        rw [hres]
        exact ⟨fun _ => ⟨fallbackNoticeText, rfl, by decide⟩, fun h => absurd rfl h⟩
    | none =>
      cases res with
      | none =>
        exact ⟨fun _ => ⟨fallbackNoticeText, rfl, by decide⟩, fun h => absurd rfl h⟩
      | some r =>
        constructor
        · intro h
          have hl : (r.transactions.getD []).map mapRawTx = [] := h
          refine ⟨emptyNoticeText, ?_, by decide⟩
          show (if ((r.transactions.getD []).map mapRawTx).length = 0
              then some emptyNoticeText else none) = some emptyNoticeText
          rw [hl]
          rfl
        · intro h
          have hl : (r.transactions.getD []).map mapRawTx ≠ [] := h
          show (if ((r.transactions.getD []).map mapRawTx).length = 0
              then some emptyNoticeText else none) = none
          rw [if_neg]
          rw [List.length_eq_zero]
          exact hl

/-- Witness for C5 at the network-exception outcome. -/
theorem fetchTransactions_notice_iff_empty_witness :
    ∃ s, (fetchTransactions "c" {} FetchOutcome.networkError).retentionNotice =
      some s ∧ s ≠ "" :=
  (fetchTransactions_notice_iff_empty "c" {} FetchOutcome.networkError).1 rfl

/-- C6: `fetchTransactionDetails` returns the "not found" value `none`, and
does not throw, on every transport failure (network exception, non-2xx
status, parse failure), on every RPC response carrying an error object, and
on a successful response with no result payload. -/
theorem fetchTransactionDetails_not_found
    (txHash : String) (outcome : DetailOutcome)
    (h : outcome = DetailOutcome.networkError ∨
         (∃ s, outcome = DetailOutcome.httpNotOk s) ∨
         outcome = DetailOutcome.parseError ∨
         (∃ data e, outcome = DetailOutcome.ok data ∧ data.error = some e) ∨
         (∃ data, outcome = DetailOutcome.ok data ∧ data.error = none ∧
            data.result = none)) :
    fetchTransactionDetails txHash outcome = none := by
  rcases h with h | ⟨s, h⟩ | h | ⟨data, e, h, he⟩ | ⟨data, h, he, hres⟩
  · subst h; rfl
  · subst h; rfl
  · subst h; rfl
  · subst h
    obtain ⟨err, res⟩ := data
    cases he
    rfl
  · subst h
    obtain ⟨err, res⟩ := data
    cases he
    cases hres
    rfl

/-- Witness for C6 at the network-exception outcome. -/
theorem fetchTransactionDetails_not_found_witness :
    fetchTransactionDetails "h" DetailOutcome.networkError = none :=
  fetchTransactionDetails_not_found "h" DetailOutcome.networkError (Or.inl rfl)

/-- C7: on a successful response whose envelope operation list contains no
operation with an invoke-host-function body, `fetchTransactionDetails`
returns a details record with `calledFunction` and `args` absent (and does
not throw: the embedding is total). -/
theorem fetchTransactionDetails_no_invoke
    (txHash : String) (data : DetailData) (tx : TxData)
    (herr : data.error = none) (hres : data.result = some tx)
    (hops : ∀ op ∈ operationsOf tx,
      op.body.bind OperationBody.invokeHostFunction = none) :
    ∃ d, fetchTransactionDetails txHash (DetailOutcome.ok data) = some d ∧
      d.calledFunction = none ∧ d.args = none := by
  obtain ⟨err, res⟩ := data
  cases herr
  cases hres
  have hfind : (operationsOf tx).find? hasInvokeHostFunction = none := by
    rw [List.find?_eq_none]
    intro op hop
    simp [hasInvokeHostFunction, hops op hop]
  have hcall : extractCall tx = (none, none) := by
    unfold extractCall
    rw [hfind]
  refine ⟨buildDetails tx, rfl, ?_, ?_⟩
  · show (if metaAvailable tx then extractCall tx else (none, none)).1 = none
    cases hm : metaAvailable tx <;> simp [hm, hcall]
  · show (if metaAvailable tx then extractCall tx else (none, none)).2 = none
    cases hm : metaAvailable tx <;> simp [hm, hcall]

/-- Witness for C7: a success payload with meta present but an absent
envelope, so the operation list defaults to `[]`. -/
theorem fetchTransactionDetails_no_invoke_witness :
    ∃ d, fetchTransactionDetails "h"
        (DetailOutcome.ok ⟨none, some ⟨"abc", 5, "t", "SUCCESS", none, none,
          some "m", some ⟨none⟩⟩⟩) = some d ∧
      d.calledFunction = none ∧ d.args = none :=
  fetchTransactionDetails_no_invoke "h" _ _ rfl rfl
    (by intro op hop; cases hop)

/-- C10: function-call and return-value extraction is gated on
`tx.resultMetaXdr && tx.meta`; when either field is absent, `calledFunction`,
`args`, and `result` are all absent in the returned details, even when the
envelope does contain an invoke-host-function operation. -/
theorem fetchTransactionDetails_meta_gate
    (txHash : String) (data : DetailData) (tx : TxData)
    (herr : data.error = none) (hres : data.result = some tx)
    (hmiss : tx.resultMetaXdr = none ∨ tx.meta = none) :
    ∃ d, fetchTransactionDetails txHash (DetailOutcome.ok data) = some d ∧
      d.calledFunction = none ∧ d.args = none ∧ d.result = none := by
  obtain ⟨err, res⟩ := data
  cases herr
  cases hres
  have hm : metaAvailable tx = false := by
    rcases hmiss with h | h
    · simp [metaAvailable, jsTruthy, h]
    · simp [metaAvailable, h]
  refine ⟨buildDetails tx, rfl, ?_, ?_, ?_⟩
  · show (if metaAvailable tx then extractCall tx else (none, none)).1 = none
    rw [hm]; rfl
  · show (if metaAvailable tx then extractCall tx else (none, none)).2 = none
    rw [hm]; rfl
  · show (if metaAvailable tx then extractResult tx else none) = none
    rw [hm]; rfl

/-- Witness for C10: the envelope holds an invoke-host-function operation,
`resultMetaXdr` is present, but `meta` is absent, so all three extraction
fields stay absent. -/
theorem fetchTransactionDetails_meta_gate_witness :
    ∃ d, fetchTransactionDetails "h"
        (DetailOutcome.ok ⟨none, some ⟨"abc", 5, "t", "SUCCESS", none,
          some ⟨none, some ⟨some ⟨some [⟨some ⟨some ⟨some ⟨some ⟨some "transfer",
            some []⟩⟩⟩⟩⟩]⟩⟩⟩, some "x", none⟩⟩) = some d ∧
      d.calledFunction = none ∧ d.args = none ∧ d.result = none :=
  fetchTransactionDetails_meta_gate "h" _ _ rfl rfl (Or.inr rfl)
